import Mathlib

/-!
Verification development for the `modula-edocs` archival job
(`src/job/main.py`).  The Python code is shallowly embedded: bytes are
`List Nat`, file contents are the list of bytes written, fallible
operations return `Except`, and the MongoDB update pipeline is embedded
as a pure transformation of an in-memory document model.
-/

/-! ## Streaming-safe base64 decoding and file writing (`main.py` lines 27-104) -/

/-- Source constant `BASE64_CHUNK_SIZE = 8192`. -/
def BASE64_CHUNK_SIZE : Nat := 8192

/-- Source constant `_B64_ALPHABET = set(b"ABC...xyz0123456789+/=")`,
as the list of byte values (A-Z, a-z, 0-9, '+', '/', '='). -/
def B64_ALPHABET : List Nat :=
  (List.range 26).map (fun i => 65 + i) ++
  (List.range 26).map (fun i => 97 + i) ++
  (List.range 10).map (fun i => 48 + i) ++
  [43, 47, 61]

/-- Source constant `_B64_WHITESPACE = set(b" \n\r\t")`. -/
def B64_WHITESPACE : List Nat := [32, 10, 13, 9]

/-- The whitespace bytes removed by Python's `bytes.strip()`:
`\t \n \v \f \r` and space. -/
def PY_STRIP_WS : List Nat := [9, 10, 11, 12, 13, 32]

/-- Membership test in `_B64_WHITESPACE`. -/
def isB64WS (c : Nat) : Bool := decide (c ∈ B64_WHITESPACE)

/-- Membership test in `_B64_ALPHABET`. -/
def isB64Alpha (c : Nat) : Bool := decide (c ∈ B64_ALPHABET)

/-- Membership test in Python's `bytes.strip()` whitespace set. -/
def isPyWS (c : Nat) : Bool := decide (c ∈ PY_STRIP_WS)

/-- Python `data.strip()` on bytes: remove leading and trailing ASCII
whitespace. -/
def pyStrip (l : List Nat) : List Nat :=
  ((l.dropWhile isPyWS).reverse.dropWhile isPyWS).reverse

/-- Classifier `_is_probably_base64(data)` (`main.py` lines 33-57): strip the data,
reject the empty sample, reject a stripped length congruent to 1 mod 4,
then require every byte of the first 4096 bytes of the sample to be
base64-alphabet or whitespace. -/
def is_probably_base64 (data : List Nat) : Bool :=
  let sample := pyStrip data
  if sample.isEmpty then false
  else if sample.length % 4 = 1 then false
  else (sample.take 4096).all (fun ch => isB64WS ch || isB64Alpha ch)

/-- The value of a base64 data character, from CPython's
`table_a2b_base64` (binascii.c): A-Z ↦ 0-25, a-z ↦ 26-51, 0-9 ↦ 52-61,
'+' ↦ 62, '/' ↦ 63; everything else (including '=') has no data value. -/
def b64DataVal (c : Nat) : Option Nat :=
  if 65 ≤ c ∧ c ≤ 90 then some (c - 65)
  else if 97 ≤ c ∧ c ≤ 122 then some (c - 97 + 26)
  else if 48 ≤ c ∧ c ≤ 57 then some (c - 48 + 52)
  else if c = 43 then some 62
  else if c = 47 then some 63
  else none

/-- Errors raised by CPython's lax `binascii.a2b_base64` (the
`base64.b64decode` backend): `errOneMore` is "number of data characters
cannot be 1 more than a multiple of 4", `errPadding` is "Incorrect
padding". -/
inductive A2bErr where
  | errOneMore
  | errPadding
deriving DecidableEq, Repr

/-- The state machine of CPython's `binascii.a2b_base64` in lax mode
(`strict_mode=False`), which backs `base64.b64decode`: arguments are the
remaining input, `quadPos` (position in the current 4-char quantum),
`leftchar` (bits carried from the previous character) and `pads`
(consecutive padding characters seen in the current quantum).  A
non-alphabet byte is skipped; `'='` (61) completes a quantum at
positions 2 or 3 and terminates decoding; at end of input a nonzero
`quadPos` is an error. -/
def a2bGo : List Nat → Nat → Nat → Nat → Except A2bErr (List Nat)
  | [], quadPos, _, _ =>
      if quadPos = 0 then Except.ok []
      else if quadPos = 1 then Except.error A2bErr.errOneMore
      else Except.error A2bErr.errPadding
  | c :: cs, quadPos, leftchar, pads =>
      if c = 61 then
        if 2 ≤ quadPos ∧ 4 ≤ quadPos + (pads + 1) then Except.ok []
        else if 2 ≤ quadPos then a2bGo cs quadPos leftchar (pads + 1)
        else a2bGo cs quadPos leftchar pads
      else
        match b64DataVal c with
        | none => a2bGo cs quadPos leftchar pads
        | some v =>
          if quadPos = 0 then a2bGo cs 1 v 0
          else if quadPos = 1 then
            Except.map (fun r => ((leftchar <<< 2) ||| (v >>> 4)) :: r)
              (a2bGo cs 2 (v % 16) 0)
          else if quadPos = 2 then
            Except.map (fun r => ((leftchar <<< 4) ||| (v >>> 2)) :: r)
              (a2bGo cs 3 (v % 4) 0)
          else
            Except.map (fun r => ((leftchar <<< 6) ||| v) :: r)
              (a2bGo cs 0 0 0)

/-- Decoder `base64.b64decode(data)` with default lax validation. -/
def b64decode (data : List Nat) : Except A2bErr (List Nat) :=
  a2bGo data 0 0 0

/-- The consecutive slices `data[i:i+n]` for `i in range(0, len(data), n)`
(with `n ≥ 1`; the `fuel = 0` fallback is unreachable because each step
consumes at least one byte). -/
def chunksOfAux (n : Nat) : Nat → List Nat → List (List Nat)
  | _, [] => []
  | 0, l => [l]
  | fuel + 1, x :: xs => (x :: xs.take (n - 1)) :: chunksOfAux n fuel (xs.drop (n - 1))

/-- All chunks `data[i:i+n]` of a byte string, in order. -/
def chunksOf (n : Nat) (l : List Nat) : List (List Nat) :=
  chunksOfAux n l.length l

/-- Slice `to_decode` of one loop iteration of `write_base64_stream`
(`main.py` lines 86-95): the prefix of `buffer + chunk` whose length is
the largest multiple of 4. -/
def loopToDecode (buffer chunk : List Nat) : List Nat :=
  let buf := buffer ++ chunk
  buf.take (buf.length - buf.length % 4)

/-- The carry-over `buffer` left after one loop iteration of
`write_base64_stream`: the remaining `len % 4` bytes. -/
def loopCarry (buffer chunk : List Nat) : List Nat :=
  let buf := buffer ++ chunk
  buf.drop (buf.length - buf.length % 4)

/-- The final flush padding of `write_base64_stream` (`main.py` lines
100-103): append `(-len(buffer)) % 4` copies of `'='`. -/
def padTo4 (buffer : List Nat) : List Nat :=
  buffer ++ List.replicate ((4 - buffer.length % 4) % 4) 61

/-- The chunk loop of the base64 branch of `write_base64_stream`
(`main.py` lines 82-104), abstracted over the list of input chunks: per
chunk decode only the complete quanta and carry the excess; at the end
pad the leftover buffer to a multiple of 4 and decode it.  The result is
the byte sequence written to the output file; a decode failure raises. -/
def b64StreamGo : List Nat → List (List Nat) → Except A2bErr (List Nat)
  | buffer, [] =>
      if buffer.isEmpty then Except.ok []
      else b64decode (padTo4 buffer)
  | buffer, chunk :: rest =>
      let toDec := loopToDecode buffer chunk
      match (if toDec.isEmpty then Except.ok [] else b64decode toDec) with
      | Except.error e => Except.error e
      | Except.ok out =>
        match b64StreamGo (loopCarry buffer chunk) rest with
        | Except.error e => Except.error e
        | Except.ok outs => Except.ok (out ++ outs)

/-- Writer `write_base64_stream(b64_data, out_path)` (`main.py` lines 60-104)
on byte input, returning the bytes written to `out_path`: raw payloads
are copied chunk by chunk; base64-classified payloads go through the
streaming decode loop. -/
def write_base64_stream (data : List Nat) : Except A2bErr (List Nat) :=
  if is_probably_base64 data then
    b64StreamGo [] (chunksOf BASE64_CHUNK_SIZE data)
  else
    Except.ok (chunksOf BASE64_CHUNK_SIZE data).flatten

/-! ## Clave decoding and file staging (`main.py` lines 107-151) -/

/-- Python slicing `l[a:b]` on a string (as a character list): total,
clamped to the string's bounds. -/
def pySlice (l : List Char) (a b : Nat) : List Char :=
  (l.take b).drop a

/-- Decoder `clave_to_rel_path(clave)` (`main.py` lines 107-115): the staging
path components `[year, month, day, branch_code, edoc_type]`, namely
`clave[7:9] / clave[5:7] / clave[6:8] / clave[21:24] / clave[29:31]`. -/
def clave_to_rel_path (clave : List Char) : List (List Char) :=
  [pySlice clave 7 9, pySlice clave 5 7, pySlice clave 6 8,
   pySlice clave 21 24, pySlice clave 29 31]

/-- Errors that can escape `stage_file_streaming`: the explicit
`ValueError("Invalid clave length")` guard, or a `binascii.Error`
propagating out of `write_base64_stream`. -/
inductive StageErr where
  | invalidClave
  | decodeErr (e : A2bErr)
deriving DecidableEq, Repr

/-- Staging `stage_file_streaming` (`main.py` lines 119-151), reduced to its
observable result: reject claves shorter than 50 characters, otherwise
derive the staging directory from the clave and write the decoded
payload; the result is the staging path components together with the
bytes written. -/
def stage_file_streaming (clave : List Char) (binary : List Nat) :
    Except StageErr (List (List Char) × List Nat) :=
  if clave.length < 50 then Except.error StageErr.invalidClave
  else
    match write_base64_stream binary with
    | Except.error e => Except.error (StageErr.decodeErr e)
    | Except.ok out => Except.ok (clave_to_rel_path clave, out)

/-! ## The discovery/staging sweep of `run_job` (`main.py` lines 342-377) -/

/-- One entry of a document's `files` map as seen by the sweep loop:
`filename`, optional `binary` payload and optional `status`. -/
structure JFile where
  filename : String
  binary : Option (List Nat)
  status : Option String

/-- A discovered document: its clave and the values of its `files` map
in iteration order. -/
structure JDoc where
  clave : List Char
  files : List JFile

/-- Python truthiness of `file_data.get("binary")`: `None` and the empty
byte string are falsy. -/
def binaryTruthy : Option (List Nat) → Bool
  | none => false
  | some [] => false
  | some (_ :: _) => true

/-- The body of the inner file loop of `run_job` (`main.py` lines
355-371): skip files without a (truthy) binary, skip files whose status
defaults to "staged" but is not "staged", otherwise stage the file.
`ok none` means the file was skipped; `ok (some r)` means it was staged;
an error propagates to the caller unhandled, exactly as in the source
(there is no try/except around the loop body). -/
def processFile (clave : List Char) (fd : JFile) :
    Except StageErr (Option (List (List Char) × List Nat)) :=
  if !binaryTruthy fd.binary then Except.ok none
  else if fd.status.getD "staged" ≠ "staged" then Except.ok none
  else
    match stage_file_streaming clave (fd.binary.getD []) with
    | Except.error e => Except.error e
    | Except.ok r => Except.ok (some r)

/-- The file loop of `run_job` for one document: each staged file
records the contribution `(staging-path components, document id)` to
`staged_docs_by_dir` (set insertion is modeled as list accumulation).
The first staging error aborts the loop. -/
def processFiles (clave : List Char) (docId : Nat) :
    List JFile → Except StageErr (List (List (List Char) × Nat))
  | [] => Except.ok []
  | fd :: rest =>
    match processFile clave fd with
    | Except.error e => Except.error e
    | Except.ok none => processFiles clave docId rest
    | Except.ok (some _) =>
      match processFiles clave docId rest with
      | Except.error e => Except.error e
      | Except.ok gs => Except.ok ((clave_to_rel_path clave, docId) :: gs)

/-- Processing of a single discovered document by `run_job`. -/
def processDoc (docId : Nat) (d : JDoc) :
    Except StageErr (List (List (List Char) × Nat)) :=
  processFiles d.clave docId d.files

/-- The discovery/staging sweep of `run_job` over the discovered
documents (in cursor order): documents are processed sequentially and,
as in the source, any exception raised while staging one file
propagates out of the sweep (there is no per-file or per-document
handler). -/
def stageSweep : List (Nat × JDoc) → Except StageErr (List (List (List Char) × Nat))
  | [] => Except.ok []
  | (i, d) :: rest =>
    match processDoc i d with
    | Except.error e => Except.error e
    | Except.ok gs =>
      match stageSweep rest with
      | Except.error e => Except.error e
      | Except.ok gss => Except.ok (gs ++ gss)

/-! ## The Mongo document model and the commit pipeline
(`update_documents_for_tarball`, `main.py` lines 154-206) -/

/-- The fixed set of file kinds targeted by the update pipeline. -/
inductive FileKind where
  | pdf | html | xml | mh_xml | mr_xml
deriving DecidableEq, Repr

/-- List `file_fields` / the five `files.*` paths of the source, in order. -/
def fileFields : List FileKind := [.pdf, .html, .xml, .mh_xml, .mr_xml]

/-- A scalar BSON value stored in a file sub-document. -/
inductive BVal where
  | null
  | str (s : String)
  | intv (n : Int)
  | bin (bytes : List Nat)
deriving DecidableEq, Repr

/-- The value of one `files.<kind>` path: absent (BSON "missing"), BSON
null, or a sub-document mapping field names to values. -/
inductive FVal where
  | missing
  | nullv
  | doc (fields : String → Option BVal)

/-- The field map of a `files.<kind>` value; non-documents have no
fields. -/
def docFields : FVal → (String → Option BVal)
  | .doc d => d
  | _ => fun _ => none

/-- The literal document merged in by `merge_file` in the update
pipeline: `{status: "bucket", moved_at: <moved_at>, binary: null,
tarball_path: <tar_str>}`. -/
def newFields (movedAt : BVal) (tarStr : String) : String → Option BVal :=
  fun k =>
    if k = "status" then some (BVal.str "bucket")
    else if k = "moved_at" then some movedAt
    else if k = "binary" then some BVal.null
    else if k = "tarball_path" then some (BVal.str tarStr)
    else none

/-- Mongo `$mergeObjects [base, extra]`: fields of `extra` override
fields of `base`. -/
def mergeObjects (base extra : String → Option BVal) : String → Option BVal :=
  fun k =>
    match extra k with
    | some v => some v
    | none => base k

/-- Pipeline expression `merge_file(path)` (`main.py` lines 170-190): if the path is missing
the `$$REMOVE` branch keeps it absent; otherwise `$ifNull [path, {}]`
(null becomes the empty document) is merged with the new status,
`moved_at`, null `binary` and `tarball_path` fields. -/
def merge_file (movedAt : BVal) (tarStr : String) : FVal → FVal
  | .missing => .missing
  | f => .doc (mergeObjects (docFields f) (newFields movedAt tarStr))

/-- A document of a tenant collection as far as the update pipeline is
concerned: its `_id`, its `files` map, and all remaining top-level
fields. -/
structure MDoc where
  oid : Nat
  files : FileKind → FVal
  rest : String → Option BVal

/-- The effect of the `$set` pipeline of `update_documents_for_tarball`
on one matched document: each of the five `files.*` paths is replaced by
its `merge_file` value; Mongo's `$set` leaves every other path of the
document unchanged. -/
def applyTarballUpdate (movedAt : BVal) (tarStr : String) (d : MDoc) : MDoc :=
  { d with files := fun k => merge_file movedAt tarStr (d.files k) }

/-- Commit `update_documents_for_tarball` (`main.py` lines 154-206) as a
transformation of the collection contents: with an empty oid-set the
function returns immediately; otherwise `update_many` applies the
pipeline to exactly the documents whose `_id` is in the oid-set. -/
def update_documents_for_tarball (oids : List Nat) (tarStr : String)
    (movedAt : BVal) (docs : List MDoc) : List MDoc :=
  if oids.isEmpty then docs
  else docs.map fun d =>
    if d.oid ∈ oids then applyTarballUpdate movedAt tarStr d else d

/-! ## The discovery query of `run_job` (`main.py` lines 320-340) -/

/-- A document as seen by the discovery query: the
`edoc_json.FechaEmision` timestamp (absent fields never satisfy
`$lte`) and the `files` map. -/
structure QDoc where
  fechaEmision : Option Int
  files : FileKind → FVal

/-- Resolution of the path `files.<kind>.status`: defined only when the
kind's value is a sub-document carrying the field. -/
def statusPath (f : FVal) : Option BVal :=
  match f with
  | .doc d => d "status"
  | _ => none

/-- The filter `{files.<kind>: {$exists: true}}`. -/
def existsFilter (f : FVal) : Bool :=
  match f with
  | .missing => false
  | _ => true

/-- The filter `{files.<kind>.status: "staged"}`. -/
def statusStagedFilter (f : FVal) : Bool :=
  statusPath f = some (BVal.str "staged")

/-- The filter `{files.<kind>.status: {$exists: false}}`. -/
def statusMissingFilter (f : FVal) : Bool :=
  statusPath f = none

/-- The discovery query of `run_job`: `FechaEmision ≤ three_hours_ago`
and the `$or` of, per file kind, (exists ∧ status = "staged") and
(exists ∧ status missing). -/
def discoveryQuery (cutoff : Int) (d : QDoc) : Bool :=
  (match d.fechaEmision with
   | some t => decide (t ≤ cutoff)
   | none => false) &&
  fileFields.any fun k =>
    (existsFilter (d.files k) && statusStagedFilter (d.files k)) ||
    (existsFilter (d.files k) && statusMissingFilter (d.files k))

/-! ## The archive move (`shutil.move`, `main.py` line 272) -/

/-- Constant `shutil.COPY_BUFSIZE` on POSIX: 64 KiB. -/
def COPY_BUFSIZE : Nat := 65536

/-- The successive observable contents of the destination file while
CPython's `shutil.copyfileobj` copies `content` into it: the file is
created empty and grows by one buffer per write. -/
def copyfileobjStates (content : List Nat) : List (Option (List Nat)) :=
  (List.range (content.length / COPY_BUFSIZE + 1)).map
    (fun i => some (content.take (COPY_BUFSIZE * i))) ++ [some content]

/-- The successive observable states of the destination path during
`shutil.move(src, dst)`, following CPython's `shutil`: when source and
destination are on the same device `os.rename` replaces the absent
destination atomically by the complete file; across devices the
fallback is `copy2` (a fresh destination file filled by
`copyfileobj`) followed by deleting the source. -/
def shutilMoveDstStates (sameDevice : Bool) (content : List Nat) :
    List (Option (List Nat)) :=
  if sameDevice then [none, some content]
  else none :: copyfileobjStates content

/-! ## Auxiliary lemmas about chunking -/

theorem flatten_chunksOfAux (n : Nat) :
    ∀ (fuel : Nat) (l : List Nat), (chunksOfAux n fuel l).flatten = l := by
  intro fuel
  induction fuel with
  | zero =>
    intro l
    cases l <;> simp [chunksOfAux]
  | succ fuel ih =>
    intro l
    cases l with
    | nil => simp [chunksOfAux]
    | cons x xs => simp [chunksOfAux, ih, List.take_append_drop]

theorem flatten_chunksOf (n : Nat) (l : List Nat) : (chunksOf n l).flatten = l :=
  flatten_chunksOfAux n l.length l

/-! ## Auxiliary lemmas about base64 data characters -/

theorem b64DataVal_lt_123 {c v : Nat} (h : b64DataVal c = some v) : c < 123 := by
  unfold b64DataVal at h
  split_ifs at h <;> omega

theorem b64DataVal_facts :
    ∀ c, c < 123 → (b64DataVal c).isSome = true →
      isB64Alpha c = true ∧ isPyWS c = false ∧ c ≠ 61 := by decide

theorem pureByte_facts {c : Nat} (h : (b64DataVal c).isSome = true) :
    isB64Alpha c = true ∧ isPyWS c = false ∧ c ≠ 61 := by
  obtain ⟨v, hv⟩ := Option.isSome_iff_exists.mp h
  exact b64DataVal_facts c (b64DataVal_lt_123 hv) h

theorem dataVal_ne_pad {c v : Nat} (h : b64DataVal c = some v) : c ≠ 61 := by
  intro hc
  subst hc
  rw [show b64DataVal 61 = none by decide] at h
  exact Option.noConfusion h

/-- The bytes produced by decoding a sequence of complete quanta of pure
base64 data characters, three output bytes per four input characters
(mirroring the emissions of `a2bGo`). -/
def decodePure : List Nat → List Nat
  | a :: b :: c :: d :: rest =>
    (match b64DataVal a, b64DataVal b, b64DataVal c, b64DataVal d with
     | some va, some vb, some vc, some vd =>
       [(va <<< 2) ||| (vb >>> 4), ((vb % 16) <<< 4) ||| (vc >>> 2),
        ((vc % 4) <<< 6) ||| vd]
     | _, _, _, _ => []) ++ decodePure rest
  | _ => []

/-! ## Single steps of the decoder on a data character -/

theorem a2bGo_step0 {c v : Nat} (cs : List Nat) (lc pads : Nat)
    (h : b64DataVal c = some v) :
    a2bGo (c :: cs) 0 lc pads = a2bGo cs 1 v 0 := by
  simp [a2bGo, dataVal_ne_pad h, h]

theorem a2bGo_step1 {c v : Nat} (cs : List Nat) (lc : Nat)
    (h : b64DataVal c = some v) :
    a2bGo (c :: cs) 1 lc 0 =
      Except.map (fun r => ((lc <<< 2) ||| (v >>> 4)) :: r) (a2bGo cs 2 (v % 16) 0) := by
  simp [a2bGo, dataVal_ne_pad h, h]

theorem a2bGo_step2 {c v : Nat} (cs : List Nat) (lc : Nat)
    (h : b64DataVal c = some v) :
    a2bGo (c :: cs) 2 lc 0 =
      Except.map (fun r => ((lc <<< 4) ||| (v >>> 2)) :: r) (a2bGo cs 3 (v % 4) 0) := by
  simp [a2bGo, dataVal_ne_pad h, h]

theorem a2bGo_step3 {c v : Nat} (cs : List Nat) (lc : Nat)
    (h : b64DataVal c = some v) :
    a2bGo (c :: cs) 3 lc 0 =
      Except.map (fun r => ((lc <<< 6) ||| v) :: r) (a2bGo cs 0 0 0) := by
  simp [a2bGo, dataVal_ne_pad h, h]

/-! ## Decoding a pure-data prefix of complete quanta -/

theorem a2bGo_pure_append :
    ∀ (n : Nat) (A B : List Nat), A.length = 4 * n →
      (∀ c ∈ A, (b64DataVal c).isSome = true) →
      a2bGo (A ++ B) 0 0 0 =
        Except.map (fun out => decodePure A ++ out) (a2bGo B 0 0 0) := by
  intro n
  induction n with
  | zero =>
    intro A B hlen _
    have hA : A = [] := List.length_eq_zero.mp (by omega)
    subst hA
    cases hB : a2bGo B 0 0 0 <;> simp [decodePure, Except.map, hB]
  | succ n ih =>
    intro A B hlen hp
    obtain ⟨a, b, c, d, rest, rfl⟩ :
        ∃ a b c d rest, A = a :: b :: c :: d :: rest := by
      rcases A with _ | ⟨a, _ | ⟨b, _ | ⟨c, _ | ⟨d, rest⟩⟩⟩⟩ <;>
        first
        | (exfalso; simp [List.length] at hlen; first | done | omega)
        | exact ⟨_, _, _, _, _, rfl⟩
    have hrest : rest.length = 4 * n := by
      simp [List.length] at hlen
      omega
    obtain ⟨va, hva⟩ := Option.isSome_iff_exists.mp (hp a (by simp))
    obtain ⟨vb, hvb⟩ := Option.isSome_iff_exists.mp (hp b (by simp))
    obtain ⟨vc, hvc⟩ := Option.isSome_iff_exists.mp (hp c (by simp))
    obtain ⟨vd, hvd⟩ := Option.isSome_iff_exists.mp (hp d (by simp))
    have hp4 : ∀ x ∈ rest, (b64DataVal x).isSome = true := by
      intro x hx
      exact hp x (by simp [hx])
    rw [List.cons_append, List.cons_append, List.cons_append, List.cons_append,
        a2bGo_step0 _ _ _ hva, a2bGo_step1 _ _ hvb, a2bGo_step2 _ _ hvc,
        a2bGo_step3 _ _ hvd, ih rest B hrest hp4]
    cases hB : a2bGo B 0 0 0 <;>
      simp [Except.map, decodePure, hva, hvb, hvc, hvd, hB]

theorem b64decode_pure_append (A B : List Nat)
    (hp : ∀ c ∈ A, (b64DataVal c).isSome = true) (h4 : A.length % 4 = 0) :
    b64decode (A ++ B) = Except.map (fun out => decodePure A ++ out) (b64decode B) :=
  a2bGo_pure_append (A.length / 4) A B (by omega) hp

theorem b64decode_pure (A : List Nat)
    (hp : ∀ c ∈ A, (b64DataVal c).isSome = true) (h4 : A.length % 4 = 0) :
    b64decode A = Except.ok (decodePure A) := by
  have h := b64decode_pure_append A [] hp h4
  simpa [b64decode, a2bGo, Except.map] using h

/-! ## The streaming loop decodes like one whole-buffer decode -/

theorem padTo4_append_left (X Y : List Nat) (h4 : X.length % 4 = 0) :
    padTo4 (X ++ Y) = X ++ padTo4 Y := by
  have hmod : (X.length + Y.length) % 4 = Y.length % 4 := by omega
  simp [padTo4, List.length_append, hmod, List.append_assoc]

theorem toDecode_append_carry (buffer chunk : List Nat) :
    loopToDecode buffer chunk ++ loopCarry buffer chunk = buffer ++ chunk := by
  simp [loopToDecode, loopCarry, List.take_append_drop]

theorem length_toDecode_mod4 (buffer chunk : List Nat) :
    (loopToDecode buffer chunk).length % 4 = 0 := by
  simp [loopToDecode, List.length_take]
  omega

theorem b64StreamGo_spec (cs : List (List Nat)) :
    ∀ (buffer : List Nat),
      (∀ c ∈ buffer, (b64DataVal c).isSome = true) →
      (∀ l ∈ cs, ∀ c ∈ l, (b64DataVal c).isSome = true) →
      b64StreamGo buffer cs = b64decode (padTo4 (buffer ++ cs.flatten)) := by
  induction cs with
  | nil =>
    intro buffer _ _
    by_cases hbe : buffer.isEmpty
    · have : buffer = [] := List.isEmpty_iff.mp hbe
      subst this
      simp [b64StreamGo, padTo4, b64decode, a2bGo]
    · simp [b64StreamGo, hbe]
  | cons ch rest ih =>
    intro buffer hb hcs
    have hbuf : ∀ c ∈ buffer ++ ch, (b64DataVal c).isSome = true := by
      intro c hc
      rcases List.mem_append.mp hc with h | h
      · exact hb c h
      · exact hcs ch (by simp) c h
    have htd : ∀ c ∈ loopToDecode buffer ch, (b64DataVal c).isSome = true := by
      intro c hc
      exact hbuf c (List.take_subset _ _ hc)
    have hcarry : ∀ c ∈ loopCarry buffer ch, (b64DataVal c).isSome = true := by
      intro c hc
      exact hbuf c (List.drop_subset _ _ hc)
    have hrest : ∀ l ∈ rest, ∀ c ∈ l, (b64DataVal c).isSome = true := by
      intro l hl
      exact hcs l (by simp [hl])
    have hdec :
        (if (loopToDecode buffer ch).isEmpty then Except.ok ([] : List Nat)
         else b64decode (loopToDecode buffer ch)) =
          Except.ok (decodePure (loopToDecode buffer ch)) := by
      by_cases he : (loopToDecode buffer ch).isEmpty
      · have : loopToDecode buffer ch = [] := List.isEmpty_iff.mp he
        simp [he, this, decodePure]
      · simp [he, b64decode_pure _ htd (length_toDecode_mod4 buffer ch)]
    have hsplit :
        buffer ++ (ch :: rest).flatten =
          loopToDecode buffer ch ++ (loopCarry buffer ch ++ rest.flatten) := by
      rw [← List.append_assoc, toDecode_append_carry]
      simp [List.append_assoc]
    rw [b64StreamGo, hdec, ih (loopCarry buffer ch) hcarry hrest, hsplit,
        padTo4_append_left _ _ (length_toDecode_mod4 buffer ch),
        b64decode_pure_append _ _ htd (length_toDecode_mod4 buffer ch)]
    cases hx : b64decode (padTo4 (loopCarry buffer ch ++ rest.flatten)) <;>
      simp [Except.map, hx]

/-! ## Pure-data payloads are classified as base64 -/

theorem dropWhile_eq_self_of_false {p : Nat → Bool} :
    ∀ {l : List Nat}, (∀ c ∈ l, p c = false) → l.dropWhile p = l := by
  intro l h
  cases l with
  | nil => rfl
  | cons x xs => simp [List.dropWhile_cons, h x (by simp)]

theorem pyStrip_eq_self {l : List Nat} (h : ∀ c ∈ l, isPyWS c = false) :
    pyStrip l = l := by
  unfold pyStrip
  rw [dropWhile_eq_self_of_false h]
  rw [dropWhile_eq_self_of_false (by intro c hc; exact h c (List.mem_reverse.mp hc))]
  exact List.reverse_reverse l

theorem pure_is_classified {p : List Nat} (h0 : p ≠ [])
    (hp : ∀ c ∈ p, (b64DataVal c).isSome = true) (h1 : p.length % 4 ≠ 1) :
    is_probably_base64 p = true := by
  have hstrip : pyStrip p = p :=
    pyStrip_eq_self (fun c hc => (pureByte_facts (hp c hc)).2.1)
  unfold is_probably_base64
  rw [hstrip]
  simp only [List.isEmpty_iff, h0, if_false, h1]
  rw [List.all_eq_true]
  intro c hc
  have hcp : c ∈ p := List.take_subset _ _ hc
  simp [(pureByte_facts (hp c hcp)).1]

/-! ## Claim C3: streaming decode versus whole-buffer decode -/

/-- Claim C3, as stated, is false: the payload `b" QUJD"` (a space
followed by four base64 characters) is classified as base64, but the
streaming decode fails with a padding error — the space shifts the
4-byte quantum boundary, so the loop's first decode call receives only
three data characters — while decoding the entire payload in one call
succeeds and yields `b"ABC"`.  So the streaming decode does not write
the same byte sequence as the whole-buffer decode on
whitespace-interleaved payloads. -/
theorem c3_counterexample :
    write_base64_stream [32, 81, 85, 74, 68] = Except.error A2bErr.errPadding ∧
    b64decode [32, 81, 85, 74, 68] = Except.ok [65, 66, 67] :=
  ⟨rfl, rfl⟩

/-- Claim C3 (amended): for every payload consisting solely of base64
data characters (letters, digits, `+`, `/` — no whitespace and no
interior padding) whose length is not congruent to 1 mod 4, the chunked
streaming decode performed by `write_base64_stream` writes exactly the
byte sequence produced by decoding the entire payload in one call
(padded to a multiple of 4 with `=`, exactly as the final flush does). -/
theorem c3_stream_eq_whole (p : List Nat) (h0 : p ≠ [])
    (hp : ∀ c ∈ p, (b64DataVal c).isSome = true) (h1 : p.length % 4 ≠ 1) :
    write_base64_stream p = b64decode (padTo4 p) := by
  unfold write_base64_stream
  rw [if_pos (pure_is_classified h0 hp h1)]
  have hchunks : ∀ l ∈ chunksOf BASE64_CHUNK_SIZE p, ∀ c ∈ l,
      (b64DataVal c).isSome = true := by
    intro l hl c hc
    refine hp c ?_
    rw [← flatten_chunksOf BASE64_CHUNK_SIZE p]
    exact List.mem_flatten.mpr ⟨l, hl, hc⟩
  rw [b64StreamGo_spec _ [] (by simp) hchunks]
  simp [flatten_chunksOf]

/-- Witness for `c3_stream_eq_whole` at the pure-data payload
`b"QUJDQQ"` (length 6). -/
theorem c3_stream_eq_whole_witness :
    write_base64_stream [81, 85, 74, 68, 81, 81] =
      b64decode (padTo4 [81, 85, 74, 68, 81, 81]) :=
  c3_stream_eq_whole [81, 85, 74, 68, 81, 81] (by decide) (by decide) (by decide)

/-! ## Claim C8: the payload classifier -/

/-- Classifier predicate modelled from the claim's wording: every byte
of the sample of up to the first 4096 bytes of the payload belongs to
the base64 alphabet or whitespace, and the payload's byte length modulo
4 is not 1. -/
def specC8Classifier (data : List Nat) : Bool :=
  (data.take 4096).all (fun ch => isB64WS ch || isB64Alpha ch) &&
  decide (data.length % 4 ≠ 1)

/-- Claim C8, as stated, is false: the payload `b"QUJD "` has byte
length 5 (≡ 1 mod 4), so the claim's predicate classifies it as raw,
but the code strips the trailing space first and classifies the
4-byte remainder as base64. -/
theorem c8_counterexample :
    is_probably_base64 [81, 85, 74, 68, 32] = true ∧
    specC8Classifier [81, 85, 74, 68, 32] = false :=
  ⟨rfl, rfl⟩

/-- Claim C8 (amended): the classifier marks a payload base64-encoded
iff the whitespace-stripped payload is nonempty, the stripped length
modulo 4 is not 1, and every byte of the first 4096 bytes of the
stripped payload belongs to the base64 alphabet or whitespace (so the
empty and whitespace-only payloads are always treated as raw). -/
theorem c8_classifier_spec (data : List Nat) :
    is_probably_base64 data = true ↔
      (pyStrip data ≠ [] ∧ (pyStrip data).length % 4 ≠ 1 ∧
       ∀ c ∈ (pyStrip data).take 4096, c ∈ B64_WHITESPACE ∨ c ∈ B64_ALPHABET) := by
  unfold is_probably_base64
  by_cases h0 : (pyStrip data).isEmpty
  · simp [h0, List.isEmpty_iff.mp h0]
  · have h0x : pyStrip data ≠ [] := by simpa [List.isEmpty_iff] using h0
    by_cases h1 : (pyStrip data).length % 4 = 1
    · simp [h0, h1, h0x]
    · simp [h0, h1, h0x, List.all_eq_true, isB64WS, isB64Alpha]

/-! ## Claim C9: raw payloads are copied byte for byte -/

/-- Claim C9 (confirmed): for every input that the classifier marks as
raw, the writer produces an output whose bytes are exactly the input
bytes, unchanged and in the same order. -/
theorem c9_raw_passthrough (data : List Nat)
    (h : is_probably_base64 data = false) :
    write_base64_stream data = Except.ok data := by
  simp [write_base64_stream, h, flatten_chunksOf]

/-- Witness for `c9_raw_passthrough` at the one-byte raw payload
`[0]`. -/
theorem c9_raw_passthrough_witness :
    write_base64_stream [0] = Except.ok [0] :=
  c9_raw_passthrough [0] rfl

/-! ## Claim C10: the carry-over buffer invariant -/

/-- Claim C10 (confirmed): in the base64 branch of
`write_base64_stream`, at the end of every chunk iteration the
carry-over buffer holds strictly fewer than 4 bytes, every decode call
inside the loop receives an input whose length is a multiple of 4, and
the final flush decodes an input padded to a multiple of 4. -/
theorem c10_buffer_invariant (buffer chunk : List Nat) :
    (loopToDecode buffer chunk).length % 4 = 0 ∧
    (loopCarry buffer chunk).length < 4 ∧
    (padTo4 buffer).length % 4 = 0 := by
  refine ⟨length_toDecode_mod4 buffer chunk, ?_, ?_⟩
  · simp [loopCarry, List.length_drop]
    omega
  · simp [padTo4, List.length_append, List.length_replicate]
    omega

/-! ## Claim C6: clave decoding -/

/-- Claim C6 (confirmed): clave decoding is total and deterministic.
For every clave shorter than 50 characters, staging fails with the
invalid-clave error regardless of the payload; for every clave of
length at least 50, the derivation of the staging key raises no error —
staging returns the key derived by `clave_to_rel_path` whenever the
payload write succeeds — and the derived components
(year, month, day, branch, edoc-type) have their full widths
2, 2, 2, 3 and 2. -/
theorem c6_clave_total (clave : List Char) :
    (clave.length < 50 →
      ∀ bin, stage_file_streaming clave bin = Except.error StageErr.invalidClave) ∧
    (50 ≤ clave.length →
      ∀ bin out, write_base64_stream bin = Except.ok out →
        stage_file_streaming clave bin = Except.ok (clave_to_rel_path clave, out)) ∧
    (50 ≤ clave.length →
      (clave_to_rel_path clave).map List.length = [2, 2, 2, 3, 2]) := by
  refine ⟨?_, ?_, ?_⟩
  · intro h bin
    simp [stage_file_streaming, h]
  · intro h bin out hw
    simp [stage_file_streaming, Nat.not_lt.mpr h, hw]
  · intro h
    simp [clave_to_rel_path, pySlice, List.length_drop, List.length_take]
    omega

/-- Witness for `c6_clave_total`: a 50-character clave is decoded into
full-width components and staged, while a 3-character clave fails with
the invalid-clave error. -/
theorem c6_clave_total_witness :
    stage_file_streaming (List.replicate 50 '0') [0] =
      Except.ok (clave_to_rel_path (List.replicate 50 '0'), [0]) ∧
    (clave_to_rel_path (List.replicate 50 '0')).map List.length = [2, 2, 2, 3, 2] ∧
    stage_file_streaming ['a', 'b', 'c'] [0] = Except.error StageErr.invalidClave :=
  ⟨(c6_clave_total (List.replicate 50 '0')).2.1 (by decide) [0] [0] rfl,
   (c6_clave_total (List.replicate 50 '0')).2.2 (by decide),
   (c6_clave_total ['a', 'b', 'c']).1 (by decide) [0]⟩

/-! ## Claim C2: error isolation in the run sweep -/

/-- A discovered document whose clave is too short and which carries an
eligible staged file. -/
def badStageDoc : JDoc :=
  ⟨['a', 'b', 'c'], [⟨"f.pdf", some [65], none⟩]⟩

/-- A well-formed 50-character clave. -/
def goodClave : List Char := List.replicate 50 '0'

/-- A discovered document with a valid clave and one eligible raw
payload. -/
def goodStageDoc : JDoc :=
  ⟨goodClave, [⟨"g.pdf", some [0], none⟩]⟩

/-- Claim C2, as stated, is false: a malformed clave on the first
document does not merely skip that file — the whole sweep aborts with
the error and the second (perfectly stageable) document is never
staged, although the same second document alone is staged fine. -/
theorem c2_counterexample :
    stageSweep [(1, badStageDoc), (2, goodStageDoc)] =
      Except.error StageErr.invalidClave ∧
    stageSweep [(2, goodStageDoc)] =
      Except.ok [(clave_to_rel_path goodClave, 2)] :=
  ⟨rfl, rfl⟩

/-- Claim C2 (amended): per-item failures are not isolated.  The
discovery/staging sweep of `run_job` propagates the first error raised
while staging any file: if processing a prefix of the discovered
documents fails, the whole run fails with that error and the remaining
documents are never processed (the only handler is the top-level one
that exits the process). -/
theorem c2_first_error_aborts (pre post : List (Nat × JDoc)) (e : StageErr)
    (h : stageSweep pre = Except.error e) :
    stageSweep (pre ++ post) = Except.error e := by
  induction pre with
  | nil => simp [stageSweep] at h
  | cons hd tl ih =>
    obtain ⟨i, d⟩ := hd
    rw [List.cons_append]
    rw [stageSweep] at h ⊢
    cases hpd : processDoc i d with
    | error e2 =>
      rw [hpd] at h
      exact h
    | ok gs =>
      rw [hpd] at h
      cases hts : stageSweep tl with
      | error e2 =>
        rw [hts] at h
        simp at h
        subst h
        rw [ih hts]
      | ok gss =>
        rw [hts] at h
        simp at h

/-- Witness for `c2_first_error_aborts`: the failing one-document
prefix aborts the extended run. -/
theorem c2_first_error_aborts_witness :
    stageSweep ([(1, badStageDoc)] ++ [(2, goodStageDoc)]) =
      Except.error StageErr.invalidClave :=
  c2_first_error_aborts [(1, badStageDoc)] [(2, goodStageDoc)]
    StageErr.invalidClave rfl

/-! ## Claim C7: idempotence of the commit update -/

theorem mergeObjects_override (a b : String → Option BVal) :
    mergeObjects (mergeObjects a b) b = mergeObjects a b := by
  funext k
  unfold mergeObjects
  cases b k <;> simp

theorem merge_file_idem (mv : BVal) (ts : String) (f : FVal) :
    merge_file mv ts (merge_file mv ts f) = merge_file mv ts f := by
  cases f with
  | missing => rfl
  | nullv => simp [merge_file, docFields, mergeObjects_override]
  | doc d => simp [merge_file, docFields, mergeObjects_override]

theorem applyTarballUpdate_idem (mv : BVal) (ts : String) (d : MDoc) :
    applyTarballUpdate mv ts (applyTarballUpdate mv ts d) = applyTarballUpdate mv ts d := by
  cases d
  simp [applyTarballUpdate]
  funext k
  exact merge_file_idem mv ts _

/-- Claim C7 (confirmed): the commit update is idempotent — for every
collection state, oid-set, archive path and run timestamp, applying
`update_documents_for_tarball` twice with the same arguments yields
exactly the same final collection state as applying it once. -/
theorem c7_commit_idempotent (oids : List Nat) (ts : String) (mv : BVal)
    (docs : List MDoc) :
    update_documents_for_tarball oids ts mv (update_documents_for_tarball oids ts mv docs) =
      update_documents_for_tarball oids ts mv docs := by
  unfold update_documents_for_tarball
  by_cases h : oids.isEmpty
  · simp [h]
  · simp [h, List.map_map]
    intro a _ hmem
    by_cases hm : a.oid ∈ oids
    · simp [hm, applyTarballUpdate_idem]
    · rw [if_neg hm] at hmem
      exact absurd hmem hm

/-! ## Claim C1: the frame effect of the commit update -/

/-- An xml sub-document already moved to the bucket: status `bucket`,
with its original `moved_at` and `tarball_path`. -/
def xmlBucketSub : String → Option BVal := fun k =>
  if k = "status" then some (BVal.str "bucket")
  else if k = "moved_at" then some (BVal.intv 1)
  else if k = "binary" then some BVal.null
  else if k = "tarball_path" then some (BVal.str "old.tar.gz")
  else none

/-- A pdf sub-document still staged. -/
def pdfStagedSub : String → Option BVal := fun k =>
  if k = "status" then some (BVal.str "staged")
  else if k = "filename" then some (BVal.str "a.pdf")
  else if k = "binary" then some (BVal.bin [1, 2, 3])
  else none

/-- A document with kinds `{pdf: staged, xml: bucket}`, committed for
pdf only. -/
def frameCexDoc : MDoc where
  oid := 7
  files := fun k =>
    match k with
    | .pdf => .doc pdfStagedSub
    | .xml => .doc xmlBucketSub
    | _ => .missing
  rest := fun _ => none

/-- Claim C1, as stated, is false: committing the document
`{pdf: staged, xml: bucket}` for pdf only does not leave the xml
sub-document identical — the pipeline merges the new `tarball_path` and
`moved_at` into every existing file kind, so the xml sub-document's
`tarball_path` flips from the old archive to the new one and its
`moved_at` is overwritten. -/
theorem c1_counterexample :
    docFields (frameCexDoc.files FileKind.xml) "tarball_path" =
      some (BVal.str "old.tar.gz") ∧
    docFields
        (((update_documents_for_tarball [7] "new.tar.gz" (BVal.intv 2)
            [frameCexDoc]).headD frameCexDoc).files FileKind.xml)
        "tarball_path" = some (BVal.str "new.tar.gz") ∧
    docFields
        (((update_documents_for_tarball [7] "new.tar.gz" (BVal.intv 2)
            [frameCexDoc]).headD frameCexDoc).files FileKind.xml)
        "moved_at" = some (BVal.intv 2) :=
  ⟨rfl, rfl, rfl⟩

/-- Claim C1 (amended): the commit update modifies only the `files.*`
paths — the document's identifier and every other top-level field are
unchanged, and file kinds absent from the document remain absent — and
for every file kind that exists on the document (related to the staged
work or not) it overwrites exactly the four fields `status`,
`moved_at`, `binary` and `tarball_path`, preserving all other fields of
that sub-document; in particular `tarball_path` is set to the new
archive path on every existing kind. -/
theorem c1_frame_effect (mv : BVal) (ts : String) (d : MDoc) :
    (applyTarballUpdate mv ts d).oid = d.oid ∧
    (applyTarballUpdate mv ts d).rest = d.rest ∧
    (∀ k, d.files k = FVal.missing →
      (applyTarballUpdate mv ts d).files k = FVal.missing) ∧
    (∀ k s, newFields mv ts s = none →
      docFields ((applyTarballUpdate mv ts d).files k) s = docFields (d.files k) s) ∧
    (∀ k, d.files k ≠ FVal.missing →
      docFields ((applyTarballUpdate mv ts d).files k) "tarball_path" =
        some (BVal.str ts)) := by
  refine ⟨rfl, rfl, ?_, ?_, ?_⟩
  · intro k hk
    simp [applyTarballUpdate, hk, merge_file]
  · intro k s hs
    cases hf : d.files k with
    | missing => simp [applyTarballUpdate, hf, merge_file]
    | nullv => simp [applyTarballUpdate, hf, merge_file, docFields, mergeObjects, hs]
    | doc fk => simp [applyTarballUpdate, hf, merge_file, docFields, mergeObjects, hs]
  · intro k hk
    have hnew : newFields mv ts "tarball_path" = some (BVal.str ts) := rfl
    cases hf : d.files k with
    | missing => exact absurd hf hk
    | nullv => simp [applyTarballUpdate, hf, merge_file, docFields, mergeObjects, hnew]
    | doc fk => simp [applyTarballUpdate, hf, merge_file, docFields, mergeObjects, hnew]

/-- Witness for `c1_frame_effect`: on the concrete document, the html
kind stays absent, the xml sub-document's `filename`-free fields beyond
the four written ones are untouched (here: the pdf `filename`), and the
pdf kind receives the new `tarball_path`. -/
theorem c1_frame_effect_witness :
    (applyTarballUpdate (BVal.intv 2) "new.tar.gz" frameCexDoc).files FileKind.html =
      FVal.missing ∧
    docFields
        ((applyTarballUpdate (BVal.intv 2) "new.tar.gz" frameCexDoc).files FileKind.pdf)
        "filename" = docFields (frameCexDoc.files FileKind.pdf) "filename" ∧
    docFields
        ((applyTarballUpdate (BVal.intv 2) "new.tar.gz" frameCexDoc).files FileKind.pdf)
        "tarball_path" = some (BVal.str "new.tar.gz") :=
  ⟨(c1_frame_effect (BVal.intv 2) "new.tar.gz" frameCexDoc).2.2.1 FileKind.html rfl,
   (c1_frame_effect (BVal.intv 2) "new.tar.gz" frameCexDoc).2.2.2.1 FileKind.pdf
     "filename" rfl,
   (c1_frame_effect (BVal.intv 2) "new.tar.gz" frameCexDoc).2.2.2.2 FileKind.pdf
     (by simp [frameCexDoc])⟩

/-! ## Claim C5: the discovery query -/

/-- A file kind value with a non-empty binary payload (truthiness of a
BSON binary). -/
def hasNonemptyBinary (f : FVal) : Bool :=
  match f with
  | .doc d =>
    match d "binary" with
    | some (BVal.bin (_ :: _)) => true
    | _ => false
  | _ => false

/-- Selection predicate modelled from the claim's wording: the emission
timestamp is at or before the cutoff and at least one file kind's
sub-document exists with status `staged`, or exists with no status
field while having a non-empty payload. -/
def specC5Selects (cutoff : Int) (d : QDoc) : Bool :=
  (match d.fechaEmision with
   | some t => decide (t ≤ cutoff)
   | none => false) &&
  fileFields.any fun k =>
    (existsFilter (d.files k) && statusStagedFilter (d.files k)) ||
    (existsFilter (d.files k) && statusMissingFilter (d.files k) &&
      hasNonemptyBinary (d.files k))

/-- A stale document whose only file kind exists without a status field
and without any payload. -/
def qCexDoc : QDoc where
  fechaEmision := some 0
  files := fun k =>
    match k with
    | .xml => .doc (fun s => if s = "filename" then some (BVal.str "x.xml") else none)
    | _ => .missing

/-- Claim C5, as stated, is false: the discovery query has no payload
condition.  A stale document whose xml kind exists with no status field
and no binary payload is selected by the code's query, while the
claim's predicate (which requires a non-empty payload in the
missing-status case) rejects it. -/
theorem c5_counterexample :
    discoveryQuery 0 qCexDoc = true ∧ specC5Selects 0 qCexDoc = false :=
  ⟨rfl, rfl⟩

/-- Claim C5 (amended): the discovery query selects a document iff its
emission timestamp is present and at or before the cutoff and at least
one file kind's sub-document exists with status `staged` or exists with
no status field (regardless of its payload — the payload check happens
later, per file, in the staging loop); consequently a document whose
kinds are all absent or at status `bucket` is never selected. -/
theorem c5_discovery_spec (cutoff : Int) (d : QDoc) :
    (discoveryQuery cutoff d = true ↔
      ((∃ t, d.fechaEmision = some t ∧ t ≤ cutoff) ∧
       ∃ k ∈ fileFields, d.files k ≠ FVal.missing ∧
         (statusPath (d.files k) = some (BVal.str "staged") ∨
          statusPath (d.files k) = none))) ∧
    ((∀ k, d.files k = FVal.missing ∨
        statusPath (d.files k) = some (BVal.str "bucket")) →
      discoveryQuery cutoff d = false) := by
  constructor
  · unfold discoveryQuery
    rw [Bool.and_eq_true, List.any_eq_true]
    constructor
    · rintro ⟨hts, k, hk, hsel⟩
      refine ⟨?_, k, hk, ?_⟩
      · cases hfe : d.fechaEmision with
        | none => rw [hfe] at hts; exact absurd hts (by simp)
        | some t =>
          rw [hfe] at hts
          exact ⟨t, rfl, by simpa using hts⟩
      · rcases Bool.or_eq_true _ _ |>.mp hsel with hcase | hcase <;>
          rw [Bool.and_eq_true] at hcase <;>
          rcases hcase with ⟨hex, hst⟩ <;>
          refine ⟨by cases hfv : d.files k <;> simp [existsFilter, hfv] at hex ⊢, ?_⟩
        · exact Or.inl (of_decide_eq_true hst)
        · exact Or.inr (of_decide_eq_true hst)
    · rintro ⟨⟨t, hfe, hle⟩, k, hk, hne, hst⟩
      refine ⟨by simp [hfe, hle], k, hk, ?_⟩
      have hex : existsFilter (d.files k) = true := by
        cases hfv : d.files k <;> simp [existsFilter] <;> exact hne hfv
      rcases hst with hst | hst
      · have hb : statusStagedFilter (d.files k) = true := decide_eq_true hst
        simp [hex, hb]
      · have hb : statusMissingFilter (d.files k) = true := decide_eq_true hst
        simp [hex, hb]
  · intro hall
    unfold discoveryQuery
    have hany : (fileFields.any fun k =>
        (existsFilter (d.files k) && statusStagedFilter (d.files k)) ||
        (existsFilter (d.files k) && statusMissingFilter (d.files k))) = false := by
      rw [List.any_eq_false]
      intro k _
      rcases hall k with hmiss | hbucket
      · simp [existsFilter, hmiss]
      · simp [statusStagedFilter, statusMissingFilter, hbucket]
    rw [hany]
    simp

/-- Witness for `c5_discovery_spec`: a document whose pdf kind is at
status `bucket` and whose other kinds are absent is never selected. -/
theorem c5_discovery_spec_witness :
    discoveryQuery 0
      ⟨some 0, fun k =>
        match k with
        | FileKind.pdf => FVal.doc (fun s =>
            if s = "status" then some (BVal.str "bucket") else none)
        | _ => FVal.missing⟩ = false :=
  (c5_discovery_spec 0 _).2 (by
    intro k
    cases k <;> simp [statusPath])

/-! ## Claim C4: atomicity of the archive move -/

/-- Claim C4, as stated, is false: on a cross-device move,
`shutil.move` falls back to copying straight to the destination path,
so the destination is observable in a partially written state (here:
created empty before the first buffer is written, while the complete
archive is `[1]`). -/
theorem c4_counterexample :
    ¬ (∀ s ∈ shutilMoveDstStates false [1], s = none ∨ s = some [1]) := by
  decide

/-- Claim C4 (amended): the archive is built at a scratch location and
then moved; when the scratch and bucket locations are on the same
device the move is an atomic rename — the destination is at every
moment either absent or the complete archive — but on a cross-device
move the fallback copies into the destination path directly, and only
the final state is guaranteed to be the complete archive. -/
theorem c4_move_atomicity (content : List Nat) :
    (∀ s ∈ shutilMoveDstStates true content, s = none ∨ s = some content) ∧
    (shutilMoveDstStates false content).getLast? = some (some content) := by
  constructor
  · intro s hs
    simp [shutilMoveDstStates] at hs
    rcases hs with h | h <;> simp [h]
  · show (none :: copyfileobjStates content).getLast? = some (some content)
    unfold copyfileobjStates
    rw [show (none :: ((List.range (content.length / COPY_BUFSIZE + 1)).map
          (fun i => some (content.take (COPY_BUFSIZE * i))) ++ [some content])) =
        (none :: (List.range (content.length / COPY_BUFSIZE + 1)).map
          (fun i => some (content.take (COPY_BUFSIZE * i)))) ++ [some content]
      from by simp]
    exact List.getLast?_concat _

/-- Witness for `c4_move_atomicity`: the same-device trace for the
archive `[1]` only ever shows an absent or complete destination. -/
theorem c4_move_atomicity_witness :
    ((none : Option (List Nat)) = none ∨ (none : Option (List Nat)) = some [1]) ∧
    (shutilMoveDstStates false [1]).getLast? = some (some [1]) :=
  ⟨(c4_move_atomicity [1]).1 none (by decide), (c4_move_atomicity [1]).2⟩

/-- Witness for `c8_classifier_spec` at the payload `b"QUJD"`: the
stripped payload is nonempty, of length 4, and all alphabet, so the
classifier marks it base64. -/
theorem c8_classifier_spec_witness :
    is_probably_base64 [81, 85, 74, 68] = true :=
  (c8_classifier_spec [81, 85, 74, 68]).mpr (by decide)
